import Mathlib

/-!
Verification of the Kiddyverse backend core (src/backend) against its
natural-language specification.

The development shallowly embeds the three core components:
  * `session_storage.py` — the session store (`store_files` / `get_files`);
  * `api_manager.py` — the dual-credential failover router
    (`generate_content` and its helpers);
  * `ocr_pipeline.py` — the sequential OCR pipeline
    (`process_session`, `_process_single_image`, `_combine_ocr_results`).

Modelling conventions, stated once here:
  * Python strings become Lean `String`; the Python methods `strip`,
    `split()`, `lower`, `in` (substring / char) are re-implemented on the
    character list `String.data` (`py_strip`, `py_split_ws`, `py_lower`,
    `py_contains_sub`, `py_contains_char`) so that every definition
    reduces inside the kernel.  They agree with Python on ASCII input
    (Lean's `Char.isWhitespace` covers space, tab, CR, LF).
  * Python truthiness of `Optional` values is made explicit:
    `py_truthy_str` (None and "" are falsy), `py_truthy_nat`
    (None and 0 are falsy).
  * `datetime` timestamps become `Nat` seconds; `timedelta(minutes=5)` is
    `300`, `timedelta(minutes=1)` is `60`.  Within one `generate_content`
    call tree the clock is a single `now` value (the recursive retry in
    the source happens immediately).
  * Every confidence value produced by the pipeline is an exact multiple
    of 0.01 (`len/100`, the caps 0.1 and 0.95, the bonus +0.1, and the
    constants 1.0 / 0.0), so confidences are embedded as exact hundredths
    (`Nat`): a stored value `c` means a confidence of `c / 100`.
  * The success ratio of `process_session` is embedded exactly, in `ℚ`;
    the float literal `0.8` is read as the exact rational `4/5` (float
    rounding is irrelevant at realistic batch sizes).
  * Wall-clock durations (`processing_time_seconds`), raw byte payloads
    (modelled as `List Nat`), logging, and the thread lock (all storage
    operations are whole critical sections) are not modelled.
  * The upstream Gemini call and the external PDF-text collaborator are
    oracles passed as function arguments: `upstream : Slot → Except
    String String` (raise / return text) for the router, and
    `oracle : List Nat → Except String String`,
    `pdf_extract : List Nat → String` for the pipeline.
-/

/-! ## Python-faithful string and truthiness helpers -/

/-- Python `str.strip()`: drop whitespace from both ends. -/
def py_strip (s : String) : String :=
  String.mk (((s.data.dropWhile Char.isWhitespace).reverse.dropWhile Char.isWhitespace).reverse)

/-- Worker for `py_split_ws`; `acc` holds the current word, reversed. -/
def py_split_ws_aux : List Char → List Char → List String
  | [], acc => if acc.isEmpty then [] else [String.mk acc.reverse]
  | c :: rest, acc =>
    if c.isWhitespace then
      (if acc.isEmpty then [] else [String.mk acc.reverse]) ++ py_split_ws_aux rest []
    else py_split_ws_aux rest (c :: acc)

/-- Python `str.split()` with no argument: split on whitespace runs, dropping
empty tokens. -/
def py_split_ws (s : String) : List String := py_split_ws_aux s.data []

/-- Python `str.lower()` (ASCII-faithful). -/
def py_lower (s : String) : String := String.mk (s.data.map Char.toLower)

/-- `sub` occurs as a contiguous sublist of the first list. -/
def list_has_sublist : List Char → List Char → Bool
  | _, [] => true
  | [], _ => false
  | c :: rest, sub => sub.isPrefixOf (c :: rest) || list_has_sublist rest sub

/-- Python `sub in s` for strings. -/
def py_contains_sub (s sub : String) : Bool := list_has_sublist s.data sub.data

/-- Python `c in s` for a single character. -/
def py_contains_char (s : String) (c : Char) : Bool := s.data.contains c

/-- Python truthiness of an `Optional[str]`: `None` and `""` are falsy. -/
def py_truthy_str : Option String → Bool
  | none => false
  | some s => s != ""

/-- Python truthiness of an `Optional[int]`: `None` and `0` are falsy. -/
def py_truthy_nat : Option Nat → Bool
  | none => false
  | some n => n != 0

/-! ## Session storage (`session_storage.py`)

`StoredFile` mirrors the dataclass (lines 16-28); `created_at` is not
modelled (no claim in scope depends on it).  The storage map
`Dict[str, Dict[str, List[StoredFile]]]` becomes an insertion-ordered
association list, matching Python 3.7+ dict semantics: new keys are
appended, existing keys keep their position and are updated in place. -/

structure StoredFile where
  filename : String
  content_type : String
  data : List Nat
  text_content : Option String := none
  page_number : Option Nat := none
deriving DecidableEq, Repr

/-- One session's data: content type ↦ files of that type, insertion-ordered. -/
abbrev SessionData := List (String × List StoredFile)

/-- The whole store: session id ↦ session data, insertion-ordered. -/
abbrev Storage := List (String × SessionData)

/-- Append `file` to its content-type group, creating the group at the end
if absent (`store_files` lines 58-63). -/
def dict_insert_file : SessionData → StoredFile → SessionData
  | [], file => [(file.content_type, [file])]
  | (k, l) :: rest, file =>
    if k == file.content_type then (k, l ++ [file]) :: rest
    else (k, l) :: dict_insert_file rest file

/-- Python dict assignment `d[k] = v`: replace in place, or append. -/
def storage_set : Storage → String → SessionData → Storage
  | [], sid, d => [(sid, d)]
  | (k, v) :: rest, sid, d =>
    if k == sid then (k, d) :: rest else (k, v) :: storage_set rest sid d

/-- `SessionStorage.store_files` (lines 50-70).  Creates the session entry
if missing, then groups the files by content type.  The `try/except` around
the body can only ever take the success path in this embedding, so the
returned flag is always `true`. -/
def store_files (storage : Storage) (session_id : String) (files : List StoredFile) :
    Bool × Storage :=
  let storage :=
    if (storage.lookup session_id).isSome then storage else storage ++ [(session_id, [])]
  let d := files.foldl dict_insert_file ((storage.lookup session_id).getD [])
  (true, storage_set storage session_id d)

/-- All files of a session, in content-type group order (`get_files`
lines 82-86: iterate the dict's values and extend). -/
def session_all_files : SessionData → List StoredFile
  | [] => []
  | (_, l) :: rest => l ++ session_all_files rest

/-- `SessionStorage.get_files` (lines 72-90). -/
def get_files (storage : Storage) (session_id : String) (content_type : Option String) :
    List StoredFile :=
  match storage.lookup session_id with
  | none => []
  | some d =>
    match content_type with
    | some c => (d.lookup c).getD []
    | none => session_all_files d

/-! ## Dual API key manager (`api_manager.py`)

Clients are modelled by which credential slot they wrap.  `APIState`
carries the fields of `APIManager` that the failover logic reads or
writes; `primary_client` / `backup_client` are the configured-credential
flags (`bool(self.primary_client)` etc.). -/

inductive Slot where
  | primary
  | backup
deriving DecidableEq, Repr

structure APIState where
  primary_client : Bool
  backup_client : Bool
  current_client : Option Slot
  using_backup : Bool
  failover_count : Nat
  last_failover_time : Option Nat
  primary_retry_time : Option Nat
  req_primary : Nat
  req_backup : Nat
  last_reset_time : Nat
deriving DecidableEq, Repr

/-- `APIManager.__init__` + `_initialize_clients` (lines 22-68): the current
client is the primary if configured, else the backup if configured. -/
def init_api_state (pk bk : Bool) (now : Nat) : APIState where
  primary_client := pk
  backup_client := bk
  current_client := if pk then some Slot.primary else if bk then some Slot.backup else none
  using_backup := false
  failover_count := 0
  last_failover_time := none
  primary_retry_time := none
  req_primary := 0
  req_backup := 0
  last_reset_time := now

/-- `_reset_rate_limits` (lines 78-83). -/
def reset_rate_limits (now : Nat) (st : APIState) : APIState :=
  if now - st.last_reset_time > 60 then
    { st with req_primary := 0, req_backup := 0, last_reset_time := now }
  else st

/-- `_should_retry_primary` (lines 70-76): a `datetime` is always truthy,
so the second disjunct of the guard is an `isNone` test. -/
def should_retry_primary (now : Nat) (st : APIState) : Bool :=
  if !st.using_backup then false
  else
    match st.primary_retry_time with
    | none => false
    | some t => decide (now > t)

/-- `_is_rate_limit_error` (lines 85-90). -/
def is_rate_limit_error (e : String) : Bool :=
  ["rate limit", "quota", "too many requests", "429"].any
    (fun term => py_contains_sub (py_lower e) term)

/-- `_is_api_key_error` (lines 92-97). -/
def is_api_key_error (e : String) : Bool :=
  ["api key", "invalid", "unauthorized", "401", "403"].any
    (fun term => py_contains_sub (py_lower e) term)

/-- `_failover_to_backup` (lines 99-112). -/
def failover_to_backup (now : Nat) (st : APIState) : Bool × APIState :=
  if !st.backup_client then (false, st)
  else
    (true,
     { st with
        using_backup := true
        current_client := some Slot.backup
        failover_count := st.failover_count + 1
        last_failover_time := some now
        primary_retry_time := some (now + 300) })

/-- `_failback_to_primary` (lines 114-124). -/
def failback_to_primary (st : APIState) : Bool × APIState :=
  if !st.primary_client then (false, st)
  else
    (true,
     { st with
        using_backup := false
        current_client := some Slot.primary
        primary_retry_time := none })

/-- `get_client` (lines 126-134): reset the rate-limit window, opportunistic
failback, return the current client. -/
def get_client (now : Nat) (st : APIState) : Option Slot × APIState :=
  let st1 := reset_rate_limits now st
  let st2 := if should_retry_primary now st1 then (failback_to_primary st1).2 else st1
  (st2.current_client, st2)

/-- The request-count bookkeeping of `generate_content` (lines 147-150):
the counter key is chosen by `using_backup`, not by the current client. -/
def track_request (st : APIState) : APIState :=
  if st.using_backup then { st with req_backup := st.req_backup + 1 }
  else { st with req_primary := st.req_primary + 1 }

/-- Outcome of one `generate_content` call: the final manager state, the
upstream attempts actually issued (in order), and the returned value.
`Except.ok (some r)` is a Python return of a response with text `r`;
`Except.ok none` is the (unreachable) fall-through `return None`;
`Except.error e` is a raised exception with message `e`. -/
structure GenOutcome where
  state : APIState
  attempts : List Slot
  result : Except String (Option String)
deriving Repr

/-- One invocation frame of `generate_content` (lines 136-213) up to, but
not including, the recursive self-retry: either it finishes with a
`GenOutcome` (`.inl`), or it has failed over and re-invokes itself on the
new state (`.inr (attempted slot, new state)`).  The three recursion sites
are guarded by `not self.using_backup and self.backup_client`, under which
`_failover_to_backup` always returns `True`, so the guarded recursion is
encoded directly; the dead `False` fall-throughs of the rate-limit and
auth branches would return `None`. -/
def gen_step (upstream : Slot → Except String String) (now : Nat) (st0 : APIState) :
    GenOutcome ⊕ (Slot × APIState) :=
  let p := get_client now st0
  match p.1 with
  | none => Sum.inl ⟨p.2, [], Except.error "No API keys available"⟩
  | some slot =>
    let st := track_request p.2
    match upstream slot with
    | Except.ok resp => Sum.inl ⟨st, [slot], Except.ok (some resp)⟩
    | Except.error e =>
      if is_rate_limit_error e then
        if !st.using_backup && st.backup_client then
          Sum.inr (slot, (failover_to_backup now st).2)
        else
          Sum.inl ⟨st, [slot], Except.error "Both API keys are rate limited. Please try again later."⟩
      else if is_api_key_error e then
        if !st.using_backup && st.backup_client then
          Sum.inr (slot, (failover_to_backup now st).2)
        else
          Sum.inl ⟨st, [slot], Except.error "API key authentication failed on both keys."⟩
      else
        if !st.using_backup && st.backup_client then
          Sum.inr (slot, (failover_to_backup now st).2)
        else
          Sum.inl ⟨st, [slot], Except.error e⟩

/-- `generate_content` (lines 136-213), with explicit fuel bounding the
self-retry recursion; `none` means the fuel ran out before the call
finished.  `c3_bounded_attempts` proves fuel 2 always suffices. -/
def generate_content (upstream : Slot → Except String String) (now : Nat) :
    Nat → APIState → Option GenOutcome
  | 0, _ => none
  | fuel + 1, st =>
    match gen_step upstream now st with
    | Sum.inl g => some g
    | Sum.inr (sl, st') =>
      match generate_content upstream now fuel st' with
      | none => none
      | some g => some ⟨g.state, sl :: g.attempts, g.result⟩

/-- The attempt list of a possibly-failed `generate_content` run. -/
def attempts_of (g : Option GenOutcome) : List Slot :=
  match g with
  | none => []
  | some g => g.attempts

/-! ## Sequential OCR pipeline (`ocr_pipeline.py`) -/

/-- `OCRResult` (lines 23-31).  `confidence_score` is in exact hundredths
(see the header); `processing_time_seconds` is not modelled. -/
structure OCRResult where
  filename : String
  content_type : String
  extracted_text : String
  confidence_score : Nat := 0
  page_number : Option Nat := none
  error_message : Option String := none
deriving DecidableEq, Repr

/-- `OCRPipelineResult` (lines 33-43), without `processing_time_seconds`. -/
structure OCRPipelineResult where
  success : Bool
  message : String
  session_id : String
  total_files_processed : Nat
  combined_text : String
  individual_results : List OCRResult := []
  suggestions : List String := []
  error_details : Option String := none
deriving DecidableEq, Repr

/-- One entry of the `_get_student_friendly_message` dictionary. -/
structure MessageInfo where
  title : String
  message : String
  suggestions : List String
deriving DecidableEq, Repr

/-- `_get_student_friendly_message` (lines 52-110).  The Python kwargs that
the message templates read (`file_count`, `text_length`, `success_count`,
`total_count`) are explicit arguments; `kwargs.get(_, 0)` defaults them
to 0, so call sites pass 0 for keys they do not supply. -/
def get_student_friendly_message (message_type : String)
    (file_count text_length success_count total_count : Nat) : MessageInfo :=
  if message_type == "processing_start" then
    { title := "Reading your content! 👀"
      message := s!"I\x27m carefully reading {file_count} file(s) to extract all the text."
      suggestions :=
        ["This usually takes 30-60 seconds",
         "I\x27m reading each image one by one for the best results",
         "Please wait while I work my magic! ✨"] }
  else if message_type == "processing_success" then
    { title := "Great! I found lots of text! 📝"
      message := s!"I successfully read {file_count} file(s) and found {text_length} characters of text!"
      suggestions :=
        ["Now you can ask me questions about this content",
         "I can also summarize this for your grade level",
         "Or translate it to another language if you need!"] }
  else if message_type == "processing_partial" then
    { title := "I read most of your content! 📖"
      message := s!"I successfully read {success_count} out of {total_count} files."
      suggestions :=
        ["Some files might have been unclear or damaged",
         "The text I found is still useful for your homework",
         "Try uploading clearer images if you need better results"] }
  else if message_type == "processing_failed" then
    { title := "I had trouble reading your content 😔"
      message := "I couldn\x27t extract text from your files. This might be because the images are unclear or the text is too small."
      suggestions :=
        ["Try taking clearer, brighter photos",
         "Make sure the text is large enough to read",
         "Check that your images aren\x27t blurry or rotated"] }
  else if message_type == "no_session" then
    { title := "I can\x27t find your files! 🔍"
      message := "It looks like your files weren\x27t uploaded properly or the session expired."
      suggestions :=
        ["Please upload your files again",
         "Make sure you click \x27Upload\x27 before trying to extract text",
         "Try refreshing the page if this keeps happening"] }
  else
    { title := "Something happened! 🤔"
      message := "I encountered an unexpected situation while processing your files."
      suggestions :=
        ["Please try uploading your files again",
         "Make sure your images are clear and readable",
         "Ask for help if this problem continues"] }

/-- The confidence heuristic of `_process_with_gemini_ocr` (lines 147-152),
in hundredths: `min(0.95, max(0.1, len(text.strip())/100))` with a +0.10
bonus capped at 0.95 when the raw text contains a line break or splits
into more than five words. -/
def gem_confidence (extracted_text : String) : Nat :=
  let confidence := min 95 (max 10 (py_strip extracted_text).length)
  if py_contains_char extracted_text '\n' || (py_split_ws extracted_text).length > 5 then
    min 95 (confidence + 10)
  else confidence

/-- `_process_single_image` (lines 195-262).  `oracle` is the upstream
Gemini OCR call of `_process_with_gemini_ocr` (returns the response text,
or raises); `pdf_extract` is the external `_extract_text_from_pdf_content`
collaborator.  An upstream raise is caught at this level and folded into
the item's result (lines 250-262); note that on that path the reported
`content_type` is the stored one, while on the OCR success path it is
suffixed with `_gemini_handwritten`, and that the unsupported-type branch
does not propagate `page_number`. -/
def process_single_image (oracle : List Nat → Except String String)
    (pdf_extract : List Nat → String) (stored_file : StoredFile) : OCRResult :=
  if stored_file.content_type == "pdf_text" then
    let extracted_text :=
      if py_truthy_str stored_file.text_content then stored_file.text_content.getD ""
      else pdf_extract stored_file.data
    { filename := stored_file.filename
      content_type := stored_file.content_type
      extracted_text := extracted_text
      confidence_score := 100
      page_number := stored_file.page_number }
  else if stored_file.content_type == "image" || stored_file.content_type == "pdf_images" then
    match oracle stored_file.data with
    | Except.ok extracted_text =>
      { filename := stored_file.filename
        content_type := stored_file.content_type ++ "_gemini_handwritten"
        extracted_text := extracted_text
        confidence_score := gem_confidence extracted_text
        page_number := stored_file.page_number }
    | Except.error e =>
      { filename := stored_file.filename
        content_type := stored_file.content_type
        extracted_text := ""
        confidence_score := 0
        page_number := stored_file.page_number
        error_message := some e }
  else
    { filename := stored_file.filename
      content_type := stored_file.content_type
      extracted_text := ""
      confidence_score := 0
      error_message := some ("Unsupported content type: " ++ stored_file.content_type) }

/-- The loop body of `_combine_ocr_results` (lines 264-285), started at
enumeration index `i`: each result appends its parts to the list. -/
def combined_parts_from (i : Nat) : List OCRResult → List String
  | [] => []
  | result :: rest =>
    (if py_strip result.extracted_text ≠ "" then
      (if i > 0 then
        (if py_truthy_nat result.page_number then
          (let fn := result.filename
           let pn := result.page_number.getD 0
           [s!"\n\n=== {fn} (Page {pn}) ===\n"])
         else
          (let fn := result.filename
           [s!"\n\n=== {fn} ===\n"]))
       else []) ++ [py_strip result.extracted_text]
     else if py_truthy_str result.error_message then
      (let fn := result.filename
       let em := result.error_message.getD ""
       [s!"\n\n=== {fn} ===\n[Could not read this file: {em}]"])
     else
      (let fn := result.filename
       [s!"\n\n=== {fn} ===\n[No readable text found in this file]"]))
    ++ combined_parts_from (i + 1) rest

/-- `_combine_ocr_results` (lines 264-285): `"\n".join(parts).strip()`. -/
def combine_ocr_results (results : List OCRResult) : String :=
  py_strip (String.intercalate "\n" (combined_parts_from 0 results))

/-- The success test of `process_session` line 321: truthy stripped text
and falsy error message. -/
def is_successful_result (r : OCRResult) : Bool :=
  (py_strip r.extracted_text != "") && !(py_truthy_str r.error_message)

/-- `success_rate` of `process_session` line 322 (exact rational). -/
def success_rate (results : List OCRResult) : ℚ :=
  if results.isEmpty then 0
  else ((results.filter is_successful_result).length : ℚ) / (results.length : ℚ)

/-- The outcome classification of `process_session` (lines 320-341):
the chosen student-friendly message and the `success` flag. -/
def classify_outcome (results : List OCRResult) (combined_text : String) :
    Bool × MessageInfo :=
  if success_rate results ≥ 0.8 then
    (true, get_student_friendly_message "processing_success" results.length combined_text.length 0 0)
  else if success_rate results > 0 then
    (true,
     get_student_friendly_message "processing_partial" 0 0
       (results.filter is_successful_result).length results.length)
  else
    (false, get_student_friendly_message "processing_failed" 0 0 0 0)

/-- `process_session` (lines 287-370), given the stored files the session
yielded (the source obtains them as `session_storage.get_files(session_id)`;
`process_session_store` composes the two).  The outer `try/except` cannot
fire in this embedding — every failure mode of the body is already a value
— which is exactly the claim that the outer contract is total. -/
def process_session (session_id : String) (stored_files : List StoredFile)
    (oracle : List Nat → Except String String) (pdf_extract : List Nat → String) :
    OCRPipelineResult :=
  if stored_files.isEmpty then
    let error_info := get_student_friendly_message "no_session" 0 0 0 0
    { success := false
      message := error_info.message
      session_id := session_id
      total_files_processed := 0
      combined_text := ""
      suggestions := error_info.suggestions
      error_details := some error_info.title }
  else
    let ocr_results := stored_files.map (process_single_image oracle pdf_extract)
    let combined_text := combine_ocr_results ocr_results
    let outcome := classify_outcome ocr_results combined_text
    { success := outcome.1
      message := outcome.2.message
      session_id := session_id
      total_files_processed := ocr_results.length
      combined_text := combined_text
      individual_results := ocr_results
      suggestions := outcome.2.suggestions }

/-- `process_session` as called over the live store. -/
def process_session_store (storage : Storage) (session_id : String)
    (oracle : List Nat → Except String String) (pdf_extract : List Nat → String) :
    OCRPipelineResult :=
  process_session session_id (get_files storage session_id none) oracle pdf_extract

/-! ## Router state-machine wrapper (for the reachability invariant) -/

/-- The spec invariant: the active slot being BACKUP implies the probation
deadline `primaryRetryAt` is set. -/
def router_inv (st : APIState) : Prop :=
  st.using_backup = true → st.primary_retry_time.isSome = true

/-- The operations that mutate router state: a full `generate_content`
call (with any upstream behaviour and clock), a bare `get_client`, and the
two slot switches. -/
inductive RouterOp where
  | generate (upstream : Slot → Except String String) (now : Nat)
  | client_fetch (now : Nat)
  | failover (now : Nat)
  | failback

/-- State transition of one operation (`generate` uses fuel 2, which
`c3_bounded_attempts` shows is never exhausted). -/
def apply_op (st : APIState) : RouterOp → APIState
  | RouterOp.generate upstream now =>
    match generate_content upstream now 2 st with
    | some g => g.state
    | none => st
  | RouterOp.client_fetch now => (get_client now st).2
  | RouterOp.failover now => (failover_to_backup now st).2
  | RouterOp.failback => (failback_to_primary st).2

/-! ## Spec-side definitions (refinement comparisons)

These two definitions follow the words of the spec/claims, to be compared
with the source-derived definitions above.  They are not translations of
the source. -/

/-- The confidence formula exactly as claim C9 states it: `extractedLength`
is the length of the returned text `t` itself (NOT of `t.strip()` as the
source computes), in hundredths. -/
def confidence_as_claimed (t : String) : Nat :=
  let base := min 95 (max 10 t.length)
  if py_contains_char t '\n' || (py_split_ws t).length > 5 then min 95 (base + 10)
  else base

/-- Per-item contribution to the combined text, as the (amended) claim C7
describes it: a non-blank item contributes its stripped text, preceded —
for items after the first — by a separator header naming the filename and,
when the page number is present and non-zero, the page; a blank item
contributes a single inline placeholder naming the file. -/
def spec_item_parts (i : Nat) (r : OCRResult) : List String :=
  if py_strip r.extracted_text ≠ "" then
    (if i > 0 then
      [if py_truthy_nat r.page_number then
        (let fn := r.filename
         let pn := r.page_number.getD 0
         s!"\n\n=== {fn} (Page {pn}) ===\n")
       else
        (let fn := r.filename
         s!"\n\n=== {fn} ===\n")]
     else []) ++ [py_strip r.extracted_text]
  else if py_truthy_str r.error_message then
    (let fn := r.filename
     let em := r.error_message.getD ""
     [s!"\n\n=== {fn} ===\n[Could not read this file: {em}]"])
  else
    (let fn := r.filename
     [s!"\n\n=== {fn} ===\n[No readable text found in this file]"])

/-- "Concatenating, in order, each item's contribution", starting at
index `i`. -/
def spec_contributions (i : Nat) : List OCRResult → List String
  | [] => []
  | r :: rest => spec_item_parts i r ++ spec_contributions (i + 1) rest

/-! ## Concrete fixtures for witnesses and counterexamples -/

def file_a : StoredFile := { filename := "a", content_type := "image", data := [1] }

def file_b : StoredFile :=
  { filename := "b", content_type := "pdf_text", data := [2], text_content := some "hello" }

def file_c : StoredFile := { filename := "c", content_type := "image", data := [3] }

/-- An upstream OCR oracle that always succeeds. -/
def oracle_ok : List Nat → Except String String := fun _ => Except.ok "some text"

/-- The external PDF-text collaborator, returning no text. -/
def pdf_extract0 : List Nat → String := fun _ => ""

/-- A response whose raw length (16) and stripped length (1) differ. -/
def t9 : String := "a               "

def oracle_t9 : List Nat → Except String String := fun _ => Except.ok t9

def sf_image : StoredFile := { filename := "f", content_type := "image", data := [0] }

/-- Upstream: primary is rate-limited, backup succeeds. -/
def upstream_rl_ok : Slot → Except String String
  | Slot.primary => Except.error "429"
  | Slot.backup => Except.ok "ok"

/-- Upstream: every call is rate-limited. -/
def upstream_rl : Slot → Except String String := fun _ => Except.error "429"

/-- Upstream: every call succeeds. -/
def upstream_ok : Slot → Except String String := fun _ => Except.ok "ok"

/-- Fresh manager state with both keys configured. -/
def api_st0 : APIState := init_api_state true true 0

/-- Manager state on the backup slot, on probation until t=310. -/
def api_st_backup : APIState :=
  { primary_client := true
    backup_client := true
    current_client := some Slot.backup
    using_backup := true
    failover_count := 1
    last_failover_time := some 10
    primary_retry_time := some 310
    req_primary := 0
    req_backup := 0
    last_reset_time := 0 }

def r_ok : OCRResult :=
  { filename := "f", content_type := "image", extracted_text := "hi", confidence_score := 10 }

def r_err : OCRResult :=
  { filename := "g", content_type := "image", extracted_text := "", error_message := some "err" }

/-- A result with blank text and no error message. -/
def r_blank : OCRResult := { filename := "h", content_type := "image", extracted_text := " " }

/-! ## Helper lemmas: session storage -/

theorem lookup_append_of_none (st : Storage) (sid : String) (l : Storage)
    (h : st.lookup sid = none) : (st ++ l).lookup sid = l.lookup sid := by
  induction st with
  | nil => simp
  | cons kv rest ih =>
    obtain ⟨k, v⟩ := kv
    by_cases hk : sid = k
    · simp [List.lookup, hk] at h
    · simp only [List.cons_append, List.lookup]
      rw [beq_false_of_ne hk]
      apply ih
      simpa [List.lookup, beq_false_of_ne hk] using h

theorem lookup_storage_set (st : Storage) (sid : String) (d : SessionData) :
    (storage_set st sid d).lookup sid = some d := by
  induction st with
  | nil => simp [storage_set, List.lookup]
  | cons kv rest ih =>
    obtain ⟨k, v⟩ := kv
    by_cases hk : k = sid
    · simp [storage_set, hk, List.lookup]
    · have hk' : (k == sid) = false := beq_false_of_ne hk
      have hk'' : (sid == k) = false := beq_false_of_ne (fun h => hk h.symm)
      simp [storage_set, hk', List.lookup, hk'', ih]

theorem session_all_files_insert (d : SessionData) (f : StoredFile) :
    (session_all_files (dict_insert_file d f)).Perm (session_all_files d ++ [f]) := by
  induction d with
  | nil => simp [dict_insert_file, session_all_files]
  | cons kv rest ih =>
    obtain ⟨k, l⟩ := kv
    by_cases hk : k = f.content_type
    · simp only [dict_insert_file, beq_iff_eq, hk, if_pos, session_all_files]
      rw [List.append_assoc, List.append_assoc]
      exact (@List.perm_append_comm _ [f] (session_all_files rest)).append_left l
    · have hk' : (k == f.content_type) = false := beq_false_of_ne hk
      simp only [dict_insert_file, hk', Bool.false_eq_true, if_false, session_all_files]
      rw [List.append_assoc]
      exact (ih.append_left l).trans (by rw [← List.append_assoc])

theorem session_all_files_foldl (files : List StoredFile) (d : SessionData) :
    (session_all_files (files.foldl dict_insert_file d)).Perm
      (session_all_files d ++ files) := by
  induction files generalizing d with
  | nil => simp
  | cons f rest ih =>
    simp only [List.foldl_cons]
    refine (ih (dict_insert_file d f)).trans ?_
    refine ((session_all_files_insert d f).append_right rest).trans ?_
    simp

theorem store_files_fresh_get (st : Storage) (sid : String) (files : List StoredFile)
    (h : st.lookup sid = none) :
    get_files (store_files st sid files).2 sid none =
      session_all_files (files.foldl dict_insert_file []) := by
  have h1 : ((st ++ [(sid, ([] : SessionData))]).lookup sid) = some [] := by
    rw [lookup_append_of_none st sid _ h]
    simp [List.lookup]
  simp only [store_files, h, Option.isSome_none, Bool.false_eq_true, if_false, h1,
    Option.getD_some]
  simp [get_files, lookup_storage_set]

theorem foldl_insert_single_kind (c : String) (files : List StoredFile)
    (acc : List StoredFile) (h : ∀ f ∈ files, f.content_type = c) :
    List.foldl dict_insert_file [(c, acc)] files = [(c, acc ++ files)] := by
  induction files generalizing acc with
  | nil => simp
  | cons f rest ih =>
    have hf : f.content_type = c := h f (List.mem_cons_self f rest)
    simp only [List.foldl_cons, dict_insert_file, hf, beq_self_eq_true, if_pos]
    rw [ih (acc ++ [f]) (fun g hg => h g (List.mem_cons_of_mem f hg))]
    simp

theorem session_all_single_kind (c : String) (files : List StoredFile)
    (h : ∀ f ∈ files, f.content_type = c) :
    session_all_files (files.foldl dict_insert_file []) = files := by
  cases files with
  | nil => simp [session_all_files]
  | cons f rest =>
    have hf : f.content_type = c := h f (List.mem_cons_self f rest)
    simp only [List.foldl_cons, dict_insert_file]
    rw [hf, foldl_insert_single_kind c rest [f] (fun g hg => h g (List.mem_cons_of_mem f hg))]
    simp [session_all_files]

/-! ## Helper lemmas: pipeline -/

theorem process_single_image_filename (oracle : List Nat → Except String String)
    (pdf_extract : List Nat → String) (f : StoredFile) :
    (process_single_image oracle pdf_extract f).filename = f.filename := by
  unfold process_single_image
  split_ifs <;>
    first
    | rfl
    | (rcases h : oracle f.data with t | e <;> simp [h])

theorem process_session_results_of_ne_nil (sid : String) (files : List StoredFile)
    (oracle : List Nat → Except String String) (pdf_extract : List Nat → String)
    (h : files ≠ []) :
    (process_session sid files oracle pdf_extract).individual_results =
      files.map (process_single_image oracle pdf_extract) := by
  cases files with
  | nil => exact absurd rfl h
  | cons f rest => rfl

/-! ## Claims C1 and C10 -/

/-- C1 (counterexample): with the batch `[file_a (image), file_b (pdf_text),
file_c (image)]` stored in a fresh session, `process_session` produces its
ItemResults in the order `a, c, b` — NOT the order `a, b, c` in which the
items were passed to `store_files` — because `store_files` groups items by
content type and `get_files` flattens group by group.  This refutes the
order-preservation part of the claim for batches that interleave content
kinds. -/
theorem c1_order_counterexample :
    ((process_session_store (store_files [] "s" [file_a, file_b, file_c]).2 "s"
        oracle_ok pdf_extract0).individual_results.map (fun r => r.filename)
      = ["a", "c", "b"])
    ∧ (["a", "c", "b"] : List String) ≠ ["a", "b", "c"] := by
  exact ⟨by decide, by decide⟩

/-- C1 (amended): for every batch stored into a fresh session,
`process_session` produces exactly one ItemResult per StoredItem
(`len(individual_results) == number of stored items`), in the order
`get_files` yields the items — a permutation of the batch that groups
items by content kind — and for every batch whose items all share one
content kind that order is exactly the order the items were passed to
`store_files`. -/
theorem c1_order_amended :
    ∀ (files : List StoredFile) (sid : String)
      (oracle : List Nat → Except String String) (pdf_extract : List Nat → String),
    ((process_session_store (store_files [] sid files).2 sid oracle
        pdf_extract).individual_results.length = files.length) ∧
    ((process_session_store (store_files [] sid files).2 sid oracle
          pdf_extract).individual_results.map (fun r => r.filename)
      = (get_files (store_files [] sid files).2 sid none).map (fun f => f.filename)) ∧
    ((get_files (store_files [] sid files).2 sid none).Perm files) ∧
    (∀ c, (∀ f ∈ files, f.content_type = c) →
      get_files (store_files [] sid files).2 sid none = files) := by
  intro files sid oracle pdf_extract
  have hget : get_files (store_files [] sid files).2 sid none =
      session_all_files (files.foldl dict_insert_file []) :=
    store_files_fresh_get [] sid files rfl
  have hperm : (get_files (store_files [] sid files).2 sid none).Perm files := by
    rw [hget]
    simpa using session_all_files_foldl files []
  refine ⟨?_, ?_, hperm, ?_⟩
  · rw [process_session_store]
    cases hnil : get_files (store_files [] sid files).2 sid none with
    | nil =>
      have hf : files = [] := ((hnil ▸ hperm).nil_eq).symm
      rw [hf]
      rfl
    | cons f rest =>
      rw [process_session_results_of_ne_nil sid _ oracle pdf_extract (by simp),
        List.length_map]
      exact (hnil ▸ hperm).length_eq
  · rw [process_session_store]
    cases hnil : get_files (store_files [] sid files).2 sid none with
    | nil => rfl
    | cons f rest =>
      rw [process_session_results_of_ne_nil sid _ oracle pdf_extract (by simp),
        List.map_map]
      exact List.map_congr_left
        (fun g _ => process_single_image_filename oracle pdf_extract g)
  · intro c hc
    rw [hget]
    exact session_all_single_kind c files hc

/-- Witness for `c1_order_amended` at a concrete single-kind batch. -/
theorem c1_order_witness :
    ((process_session_store (store_files [] "w" [file_a, file_c]).2 "w"
        oracle_ok pdf_extract0).individual_results.length = 2)
    ∧ get_files (store_files [] "w" [file_a, file_c]).2 "w" none = [file_a, file_c] := by
  refine ⟨(c1_order_amended [file_a, file_c] "w" oracle_ok pdf_extract0).1, ?_⟩
  exact (c1_order_amended [file_a, file_c] "w" oracle_ok pdf_extract0).2.2.2 "image"
    (by decide)

/-- C10: storing a batch under a session id that is absent from the store
succeeds (returns `true`) and silently creates a fresh entry containing
exactly those items: a subsequent `get_files` returns exactly that batch
(as a permutation — grouped by content kind, see C1). -/
theorem c10_store_fresh_session :
    ∀ (storage : Storage) (session_id : String) (files : List StoredFile),
    storage.lookup session_id = none →
    (store_files storage session_id files).1 = true ∧
    ((get_files (store_files storage session_id files).2 session_id none).Perm files) := by
  intro st sid files h
  refine ⟨rfl, ?_⟩
  rw [store_files_fresh_get st sid files h]
  simpa using session_all_files_foldl files []

/-- Witness for `c10_store_fresh_session` on an empty store. -/
theorem c10_store_fresh_session_witness :
    (store_files [] "w10" [file_a, file_b]).1 = true ∧
    ((get_files (store_files [] "w10" [file_a, file_b]).2 "w10" none).Perm
      [file_a, file_b]) :=
  c10_store_fresh_session [] "w10" [file_a, file_b] rfl

/-! ## Claim C5 -/

/-- C5: for every store, session id and oracle behaviour, when the session
yields no stored items (nonexistent, deleted, expired or empty session),
`process_session` returns a result — the embedding is a total function, so
no error escapes — with `success = false`, `total_files_processed = 0` and
empty combined text. -/
theorem c5_empty_session_total :
    ∀ (storage : Storage) (session_id : String)
      (oracle : List Nat → Except String String) (pdf_extract : List Nat → String),
    get_files storage session_id none = [] →
    (process_session_store storage session_id oracle pdf_extract).success = false ∧
    (process_session_store storage session_id oracle pdf_extract).total_files_processed = 0 ∧
    (process_session_store storage session_id oracle pdf_extract).combined_text = "" := by
  intro st sid oracle pdf_extract h
  rw [process_session_store, h]
  exact ⟨rfl, rfl, rfl⟩

/-- Witness for `c5_empty_session_total` on a session id absent from an
empty store. -/
theorem c5_empty_session_total_witness :
    (process_session_store [] "nope" oracle_ok pdf_extract0).success = false ∧
    (process_session_store [] "nope" oracle_ok pdf_extract0).total_files_processed = 0 ∧
    (process_session_store [] "nope" oracle_ok pdf_extract0).combined_text = "" :=
  c5_empty_session_total [] "nope" oracle_ok pdf_extract0 rfl

/-! ## Claim C6 -/

/-- C6: classification of a non-empty result list by the success ratio
(successful iff stripped text non-empty and error message falsy):
ratio ≥ 0.8 gives the full-success message with `success = true`;
0 < ratio < 0.8 gives the partial-success message with `success = true`;
ratio = 0 gives the failure message with `success = false`. -/
theorem c6_classification :
    ∀ (results : List OCRResult) (combined_text : String),
    results ≠ [] →
    ((success_rate results ≥ 4/5 →
       classify_outcome results combined_text =
         (true, get_student_friendly_message "processing_success" results.length
            combined_text.length 0 0)) ∧
     (0 < success_rate results → success_rate results < 4/5 →
       classify_outcome results combined_text =
         (true, get_student_friendly_message "processing_partial" 0 0
            (results.filter is_successful_result).length results.length)) ∧
     (success_rate results = 0 →
       classify_outcome results combined_text =
         (false, get_student_friendly_message "processing_failed" 0 0 0 0))) := by
  intro results combined_text _
  have h08 : (0.8 : ℚ) = 4/5 := by norm_num
  refine ⟨?_, ?_, ?_⟩
  · intro hr
    unfold classify_outcome
    rw [if_pos]
    rw [h08]
    exact hr
  · intro h0 h45
    unfold classify_outcome
    rw [if_neg, if_pos]
    · exact h0
    · rw [h08]
      exact not_le.mpr h45
  · intro h0
    unfold classify_outcome
    rw [if_neg, if_neg]
    · rw [h0]
      norm_num
    · rw [h08, h0]
      norm_num

/-- Witness for `c6_classification` at ratios 1, 1/2 and 0. -/
theorem c6_classification_witness :
    (classify_outcome [r_ok] "x" =
      (true, get_student_friendly_message "processing_success" 1 1 0 0)) ∧
    (classify_outcome [r_ok, r_err] "x" =
      (true, get_student_friendly_message "processing_partial" 0 0 1 2)) ∧
    (classify_outcome [r_err] "x" =
      (false, get_student_friendly_message "processing_failed" 0 0 0 0)) := by
  have hok : is_successful_result r_ok = true := by decide
  have herr : is_successful_result r_err = false := by decide
  have hr1 : success_rate [r_ok] = 1 := by
    norm_num [success_rate, List.filter_cons, hok]
  have hr2 : success_rate [r_ok, r_err] = 1/2 := by
    norm_num [success_rate, List.filter_cons, hok, herr]
  have hr3 : success_rate [r_err] = 0 := by
    norm_num [success_rate, List.filter_cons, herr]
  refine ⟨?_, ?_, ?_⟩
  · have h := (c6_classification [r_ok] "x" (by decide)).1 (by rw [hr1]; norm_num)
    simpa using h
  · have h := (c6_classification [r_ok, r_err] "x" (by decide)).2.1
      (by rw [hr2]; norm_num) (by rw [hr2]; norm_num)
    have hlen : ([r_ok, r_err].filter is_successful_result).length = 1 := by decide
    simpa [hlen] using h
  · exact (c6_classification [r_err] "x" (by decide)).2.2 hr3

/-! ## Claim C7 -/

theorem combined_parts_eq_spec (results : List OCRResult) :
    ∀ i, combined_parts_from i results = spec_contributions i results := by
  induction results with
  | nil => intro i; rfl
  | cons r rest ih =>
    intro i
    simp only [combined_parts_from, spec_contributions, ih (i + 1)]
    congr 1
    unfold spec_item_parts
    split_ifs <;> rfl

/-- C7 (counterexample): for a single blank, error-free item the combined
text is `=== h ===\n[No readable text found in this file]`; the claim's
exact placeholder `[No readable text found]` (closing bracket directly
after "found") does not occur in it, so the placeholder is not the string
the claim names. -/
theorem c7_combined_counterexample :
    py_contains_sub (combine_ocr_results [r_blank]) "[No readable text found]" = false ∧
    py_strip r_blank.extracted_text = "" ∧ r_blank.error_message = none := by
  exact ⟨by decide, by decide, rfl⟩

/-- C7 (amended): the combined text is the stripped "\n"-join of, in input
order, each item's contribution, where a non-blank item contributes its
stripped text preceded (for items after the first) by a separator header
naming the filename (and the page number when present and non-zero), and a
blank item contributes the inline placeholder
`[Could not read this file: <reason>]` when its error message is truthy
and `[No readable text found in this file]` otherwise — and every item's
contribution is non-empty, so no item is dropped. -/
theorem c7_combined_amended :
    ∀ (results : List OCRResult),
    (combine_ocr_results results =
      py_strip (String.intercalate "\n" (spec_contributions 0 results))) ∧
    (∀ i : Nat, ∀ r : OCRResult, spec_item_parts i r ≠ []) := by
  intro results
  constructor
  · rw [combine_ocr_results, combined_parts_eq_spec]
  · intro i r
    unfold spec_item_parts
    split_ifs <;> simp

/-! ## Claim C9 -/

/-- C9 (counterexample): for an IMAGE item whose upstream call returns
`t9 = "a" + 15 spaces`, the reported confidence is 0.10 (the source uses
the length of `t.strip()`, here 1), while the claim's formula with
`extractedLength = len(t) = 16` gives 0.16.  Confidences in hundredths. -/
theorem c9_confidence_counterexample :
    (process_single_image oracle_t9 pdf_extract0 sf_image).confidence_score = 10 ∧
    confidence_as_claimed t9 = 16 ∧ (10 : Nat) ≠ 16 :=
  ⟨by decide, by decide, by decide⟩

/-- C9 (amended): for every IMAGE or PDF_IMAGE_PAGE item whose upstream
call returns text `t`, the reported confidence is
`min(0.95, max(0.1, len(t.strip())/100))` — the length of `t` after
stripping — with a +0.10 bonus capped at 0.95 exactly when `t` contains a
line break or splits into more than five words (hundredths throughout). -/
theorem c9_confidence_amended :
    ∀ (oracle : List Nat → Except String String) (pdf_extract : List Nat → String)
      (sf : StoredFile) (t : String),
    (sf.content_type = "image" ∨ sf.content_type = "pdf_images") →
    oracle sf.data = Except.ok t →
    (process_single_image oracle pdf_extract sf).confidence_score =
      (if py_contains_char t '\n' || (py_split_ws t).length > 5 then
        min 95 (min 95 (max 10 (py_strip t).length) + 10)
       else min 95 (max 10 (py_strip t).length)) := by
  intro oracle pdf_extract sf t hct ho
  rcases hct with h | h <;>
    simp [process_single_image, h, ho, gem_confidence]

/-- Witness for `c9_confidence_amended` on a concrete image item. -/
theorem c9_confidence_amended_witness :
    (process_single_image oracle_ok pdf_extract0 sf_image).confidence_score =
      (if py_contains_char "some text" '\n' || (py_split_ws "some text").length > 5 then
        min 95 (min 95 (max 10 (py_strip "some text").length) + 10)
       else min 95 (max 10 (py_strip "some text").length)) :=
  c9_confidence_amended oracle_ok pdf_extract0 sf_image "some text" (Or.inl rfl) rfl

/-! ## Helper lemmas: API manager -/

@[simp] theorem reset_primary_client (now : Nat) (st : APIState) :
    (reset_rate_limits now st).primary_client = st.primary_client := by
  unfold reset_rate_limits; split <;> rfl

@[simp] theorem reset_backup_client (now : Nat) (st : APIState) :
    (reset_rate_limits now st).backup_client = st.backup_client := by
  unfold reset_rate_limits; split <;> rfl

@[simp] theorem reset_current_client (now : Nat) (st : APIState) :
    (reset_rate_limits now st).current_client = st.current_client := by
  unfold reset_rate_limits; split <;> rfl

@[simp] theorem reset_using_backup (now : Nat) (st : APIState) :
    (reset_rate_limits now st).using_backup = st.using_backup := by
  unfold reset_rate_limits; split <;> rfl

@[simp] theorem reset_failover_count (now : Nat) (st : APIState) :
    (reset_rate_limits now st).failover_count = st.failover_count := by
  unfold reset_rate_limits; split <;> rfl

@[simp] theorem reset_last_failover (now : Nat) (st : APIState) :
    (reset_rate_limits now st).last_failover_time = st.last_failover_time := by
  unfold reset_rate_limits; split <;> rfl

@[simp] theorem reset_primary_retry (now : Nat) (st : APIState) :
    (reset_rate_limits now st).primary_retry_time = st.primary_retry_time := by
  unfold reset_rate_limits; split <;> rfl

@[simp] theorem track_primary_client (st : APIState) :
    (track_request st).primary_client = st.primary_client := by
  unfold track_request; split <;> rfl

@[simp] theorem track_backup_client (st : APIState) :
    (track_request st).backup_client = st.backup_client := by
  unfold track_request; split <;> rfl

@[simp] theorem track_current_client (st : APIState) :
    (track_request st).current_client = st.current_client := by
  unfold track_request; split <;> rfl

@[simp] theorem track_using_backup (st : APIState) :
    (track_request st).using_backup = st.using_backup := by
  unfold track_request; split <;> rfl

@[simp] theorem track_failover_count (st : APIState) :
    (track_request st).failover_count = st.failover_count := by
  unfold track_request; split <;> rfl

@[simp] theorem track_last_failover (st : APIState) :
    (track_request st).last_failover_time = st.last_failover_time := by
  unfold track_request; split <;> rfl

@[simp] theorem track_primary_retry (st : APIState) :
    (track_request st).primary_retry_time = st.primary_retry_time := by
  unfold track_request; split <;> rfl

@[simp] theorem should_retry_reset (now now' : Nat) (st : APIState) :
    should_retry_primary now (reset_rate_limits now' st) = should_retry_primary now st := by
  unfold should_retry_primary
  rw [reset_using_backup, reset_primary_retry]

theorem should_retry_of_not_backup (now : Nat) (st : APIState)
    (h : st.using_backup = false) : should_retry_primary now st = false := by
  unfold should_retry_primary
  rw [h]
  rfl

theorem should_retry_of_probation (now : Nat) (st : APIState) (t : Nat)
    (hr : st.primary_retry_time = some t) (hle : ¬ now > t) :
    should_retry_primary now st = false := by
  unfold should_retry_primary
  rw [hr]
  cases hb : st.using_backup
  · rfl
  · simpa using hle

theorem get_client_no_retry (now : Nat) (st : APIState)
    (h : should_retry_primary now st = false) :
    get_client now st = ((reset_rate_limits now st).current_client, reset_rate_limits now st) := by
  unfold get_client
  simp only [should_retry_reset, h, Bool.false_eq_true, if_false]

theorem failback_fields (st : APIState) (h : st.primary_client = true) :
    (failback_to_primary st).2 =
      { st with
          using_backup := false
          current_client := some Slot.primary
          primary_retry_time := none } := by
  unfold failback_to_primary
  rw [h]
  rfl

theorem failover_fields (now : Nat) (st : APIState) (h : st.backup_client = true) :
    (failover_to_backup now st).2 =
      { st with
          using_backup := true
          current_client := some Slot.backup
          failover_count := st.failover_count + 1
          last_failover_time := some now
          primary_retry_time := some (now + 300) } := by
  unfold failover_to_backup
  rw [h]
  rfl

theorem get_client_failback (now : Nat) (st : APIState)
    (h : should_retry_primary now st = true) (hp : st.primary_client = true) :
    get_client now st =
      (some Slot.primary,
       { reset_rate_limits now st with
           using_backup := false
           current_client := some Slot.primary
           primary_retry_time := none }) := by
  unfold get_client
  simp only [should_retry_reset, h, if_true]
  rw [failback_fields _ (by rw [reset_primary_client, hp])]

theorem generate_content_succ (upstream : Slot → Except String String) (now fuel : Nat)
    (st : APIState) :
    generate_content upstream now (fuel + 1) st =
      match gen_step upstream now st with
      | Sum.inl g => some g
      | Sum.inr (sl, st') =>
        match generate_content upstream now fuel st' with
        | none => none
        | some g => some ⟨g.state, sl :: g.attempts, g.result⟩ := by
  rfl

theorem gen_step_client_none (upstream : Slot → Except String String) (now : Nat)
    (st : APIState) (h : (get_client now st).1 = none) :
    gen_step upstream now st =
      Sum.inl ⟨(get_client now st).2, [], Except.error "No API keys available"⟩ := by
  unfold gen_step
  simp only [h]

theorem gen_step_ok (upstream : Slot → Except String String) (now : Nat) (st : APIState)
    (sl : Slot) (resp : String)
    (hc : (get_client now st).1 = some sl) (ho : upstream sl = Except.ok resp) :
    gen_step upstream now st =
      Sum.inl ⟨track_request (get_client now st).2, [sl], Except.ok (some resp)⟩ := by
  unfold gen_step
  simp only [hc, ho]

theorem gen_step_error_failover (upstream : Slot → Except String String) (now : Nat)
    (st : APIState) (sl : Slot) (e : String)
    (hc : (get_client now st).1 = some sl) (he : upstream sl = Except.error e)
    (hub : (track_request (get_client now st).2).using_backup = false)
    (hbk : (track_request (get_client now st).2).backup_client = true) :
    gen_step upstream now st =
      Sum.inr (sl, (failover_to_backup now (track_request (get_client now st).2)).2) := by
  unfold gen_step
  simp only [hc, he, hub, hbk, Bool.not_false, Bool.and_self]
  split_ifs <;> rfl

theorem gen_step_error_no_failover (upstream : Slot → Except String String) (now : Nat)
    (st : APIState) (sl : Slot) (e : String)
    (hc : (get_client now st).1 = some sl) (he : upstream sl = Except.error e)
    (hg : (!(track_request (get_client now st).2).using_backup &&
            (track_request (get_client now st).2).backup_client) = false) :
    gen_step upstream now st =
      Sum.inl ⟨track_request (get_client now st).2, [sl],
        if is_rate_limit_error e then
          Except.error "Both API keys are rate limited. Please try again later."
        else if is_api_key_error e then
          Except.error "API key authentication failed on both keys."
        else Except.error e⟩ := by
  unfold gen_step
  simp only [hc, he, hg, Bool.false_eq_true, if_false]
  split_ifs <;> rfl

theorem gen_step_inl_attempts (upstream : Slot → Except String String) (now : Nat)
    (st : APIState) (g : GenOutcome)
    (h : gen_step upstream now st = Sum.inl g) : g.attempts.length ≤ 1 := by
  unfold gen_step at h
  rcases hc : (get_client now st).1 with _ | sl
  · simp only [hc] at h
    cases h
    simp
  · simp only [hc] at h
    cases hu : upstream sl with
    | ok resp =>
      simp only [hu] at h
      cases h
      simp
    | error e =>
      simp only [hu] at h
      split_ifs at h <;> cases h <;> simp

theorem gen_step_inr_state (upstream : Slot → Except String String) (now : Nat)
    (st : APIState) (sl : Slot) (st' : APIState)
    (h : gen_step upstream now st = Sum.inr (sl, st')) :
    st'.using_backup = true ∧ st'.primary_retry_time = some (now + 300) := by
  unfold gen_step at h
  rcases hc : (get_client now st).1 with _ | slot
  · simp only [hc] at h
    exact (Sum.noConfusion h)
  · simp only [hc] at h
    cases hu : upstream slot with
    | ok resp =>
      simp only [hu] at h
      exact (Sum.noConfusion h)
    | error e =>
      simp only [hu] at h
      split_ifs at h with h1 h2 h3 h4 h5 <;>
        first
        | exact (Sum.noConfusion h)
        | (simp only [Sum.inr.injEq, Prod.mk.injEq] at h
           obtain ⟨-, hst⟩ := h
           subst hst
           rw [failover_fields now _ (by
             rcases Bool.and_eq_true _ _ |>.mp (by assumption) with ⟨-, hb⟩
             exact hb)]
           exact ⟨rfl, rfl⟩)

theorem generate_of_gen_step_inl (upstream : Slot → Except String String) (now : Nat)
    (st : APIState) (g : GenOutcome)
    (h : gen_step upstream now st = Sum.inl g) (fuel : Nat) :
    generate_content upstream now (fuel + 1) st = some g := by
  rw [generate_content_succ, h]

theorem generate_of_gen_step_inr (upstream : Slot → Except String String) (now : Nat)
    (st : APIState) (sl : Slot) (st' : APIState) (fuel : Nat) (g : GenOutcome)
    (h : gen_step upstream now st = Sum.inr (sl, st'))
    (h' : generate_content upstream now fuel st' = some g) :
    generate_content upstream now (fuel + 1) st =
      some ⟨g.state, sl :: g.attempts, g.result⟩ := by
  rw [generate_content_succ, h]
  show (match generate_content upstream now fuel st' with
        | none => none
        | some g => some (⟨g.state, sl :: g.attempts, g.result⟩ : GenOutcome)) = _
  rw [h']

theorem gen_step_on_backup_inl (upstream : Slot → Except String String) (now : Nat)
    (st : APIState) (hub : st.using_backup = true)
    (hsr : should_retry_primary now st = false) :
    ∃ g, gen_step upstream now st = Sum.inl g ∧ g.attempts.length ≤ 1 := by
  have h2 : (get_client now st).2.using_backup = true := by
    rw [get_client_no_retry now st hsr]
    simpa using hub
  rcases hc : (get_client now st).1 with _ | sl
  · exact ⟨_, gen_step_client_none upstream now st hc, by simp⟩
  · cases hu : upstream sl with
    | ok resp => exact ⟨_, gen_step_ok upstream now st sl resp hc hu, by simp⟩
    | error e =>
      refine ⟨_, gen_step_error_no_failover upstream now st sl e hc hu ?_, by simp⟩
      rw [track_using_backup, h2]
      rfl

/-! ## Claim C3 -/

/-- C3: every external `generate_content` call makes at most two upstream
attempts and terminates: with fuel 2 the run completes (`some g`), any extra
fuel gives the same outcome (the self-retry recursion is one hop), and the
attempt list has length ≤ 2.  Moreover, once the active slot is BACKUP (and
the probation failback does not fire), a failing attempt is terminal with
exactly one attempt: a RATE_LIMIT error raises the both-rate-limited error,
an AUTH error raises the both-auth-failed error, and any OTHER error is
re-raised unchanged. -/
theorem c3_bounded_attempts :
    ∀ (upstream : Slot → Except String String) (now : Nat) (st : APIState),
    (∃ g, generate_content upstream now 2 st = some g ∧
       g.attempts.length ≤ 2 ∧
       ∀ fuel, generate_content upstream now (fuel + 2) st = some g) ∧
    (st.using_backup = true → should_retry_primary now st = false →
      ∀ sl, (get_client now st).1 = some sl →
      ∀ e, upstream sl = Except.error e →
      generate_content upstream now 2 st =
        some ⟨track_request (get_client now st).2, [sl],
          if is_rate_limit_error e then
            Except.error "Both API keys are rate limited. Please try again later."
          else if is_api_key_error e then
            Except.error "API key authentication failed on both keys."
          else Except.error e⟩) := by
  intro upstream now st
  constructor
  · cases hstep : gen_step upstream now st with
    | inl g =>
      refine ⟨g, generate_of_gen_step_inl upstream now st g hstep 1, ?_, ?_⟩
      · have := gen_step_inl_attempts upstream now st g hstep
        omega
      · intro fuel
        exact generate_of_gen_step_inl upstream now st g hstep (fuel + 1)
    | inr p =>
      obtain ⟨sl, st'⟩ := p
      obtain ⟨hub', hrt'⟩ := gen_step_inr_state upstream now st sl st' hstep
      have hsr' : should_retry_primary now st' = false :=
        should_retry_of_probation now st' (now + 300) hrt' (by omega)
      obtain ⟨g', hg', hlen'⟩ := gen_step_on_backup_inl upstream now st' hub' hsr'
      refine ⟨⟨g'.state, sl :: g'.attempts, g'.result⟩, ?_, ?_, ?_⟩
      · exact generate_of_gen_step_inr upstream now st sl st' 1 g' hstep
          (generate_of_gen_step_inl upstream now st' g' hg' 0)
      · simp only [List.length_cons]
        omega
      · intro fuel
        exact generate_of_gen_step_inr upstream now st sl st' (fuel + 1) g' hstep
          (generate_of_gen_step_inl upstream now st' g' hg' fuel)
  · intro hub hsr sl hc e he
    have h2 : (get_client now st).2.using_backup = true := by
      rw [get_client_no_retry now st hsr]
      simpa using hub
    have hstep := gen_step_error_no_failover upstream now st sl e hc he
      (by rw [track_using_backup, h2]; rfl)
    exact generate_of_gen_step_inl upstream now st _ hstep 1

/-- Witness for `c3_bounded_attempts`: on the backup slot within probation,
a rate-limited call makes exactly one attempt and raises the terminal
both-rate-limited error. -/
theorem c3_bounded_attempts_witness :
    generate_content upstream_rl 100 2 api_st_backup =
      some ⟨track_request (get_client 100 api_st_backup).2, [Slot.backup],
        if is_rate_limit_error "429" then
          Except.error "Both API keys are rate limited. Please try again later."
        else if is_api_key_error "429" then
          Except.error "API key authentication failed on both keys."
        else Except.error "429"⟩ :=
  (c3_bounded_attempts upstream_rl 100 api_st_backup).2 rfl (by decide)
    Slot.backup (by decide) "429" rfl

/-! ## Claim C2 -/

/-- C2: on the PRIMARY slot with a configured backup, a RATE_LIMIT-classified
upstream failure switches the active slot to BACKUP, increments
`failover_count` by exactly one, sets `primary_retry_time = now + 5min`,
sets `last_failover_time = now`, and retries the same call once against
BACKUP; when that retry succeeds the caller receives the response without
observing any error. -/
theorem c2_rate_limit_failover :
    ∀ (upstream : Slot → Except String String) (now : Nat) (st : APIState)
      (e resp : String),
    st.using_backup = false →
    st.current_client = some Slot.primary →
    st.backup_client = true →
    upstream Slot.primary = Except.error e →
    is_rate_limit_error e = true →
    upstream Slot.backup = Except.ok resp →
    ∃ g, generate_content upstream now 2 st = some g ∧
      g.result = Except.ok (some resp) ∧
      g.attempts = [Slot.primary, Slot.backup] ∧
      g.state.using_backup = true ∧
      g.state.failover_count = st.failover_count + 1 ∧
      g.state.primary_retry_time = some (now + 300) ∧
      g.state.last_failover_time = some now := by
  intro upstream now st e resp hub hcur hbk hup _ hok
  have hsr : should_retry_primary now st = false := should_retry_of_not_backup now st hub
  have hgc := get_client_no_retry now st hsr
  have hc1 : (get_client now st).1 = some Slot.primary := by
    rw [hgc]
    simpa using hcur
  have hub2 : (track_request (get_client now st).2).using_backup = false := by
    rw [track_using_backup, hgc]
    simpa using hub
  have hbk2 : (track_request (get_client now st).2).backup_client = true := by
    rw [track_backup_client, hgc]
    simpa using hbk
  have hstep := gen_step_error_failover upstream now st Slot.primary e hc1 hup hub2 hbk2
  have hst3 := failover_fields now (track_request (get_client now st).2) hbk2
  obtain ⟨hub3, hrt3⟩ := gen_step_inr_state upstream now st Slot.primary _ hstep
  have hcur3 : ((failover_to_backup now (track_request (get_client now st).2)).2).current_client
      = some Slot.backup := by
    rw [hst3]
  have hsr3 : should_retry_primary now
      ((failover_to_backup now (track_request (get_client now st).2)).2) = false :=
    should_retry_of_probation now _ (now + 300) hrt3 (by omega)
  have hgc3 := get_client_no_retry now _ hsr3
  have hc3 : (get_client now
      ((failover_to_backup now (track_request (get_client now st).2)).2)).1
      = some Slot.backup := by
    rw [hgc3]
    simpa using hcur3
  have hstep3 := gen_step_ok upstream now
    ((failover_to_backup now (track_request (get_client now st).2)).2) Slot.backup resp hc3 hok
  refine ⟨⟨track_request (get_client now
      ((failover_to_backup now (track_request (get_client now st).2)).2)).2,
    [Slot.primary, Slot.backup], Except.ok (some resp)⟩, ?_, rfl, rfl, ?_, ?_, ?_, ?_⟩
  · exact generate_of_gen_step_inr upstream now st Slot.primary _ 1 _ hstep
      (generate_of_gen_step_inl upstream now _ _ hstep3 0)
  · rw [track_using_backup, hgc3]
    simpa using hub3
  · rw [track_failover_count, hgc3]
    simp only [reset_failover_count]
    rw [hst3]
    simp only [track_failover_count]
    rw [hgc]
    simp
  · rw [track_primary_retry, hgc3]
    simpa using hrt3
  · rw [track_last_failover, hgc3]
    simp only [reset_last_failover]
    rw [hst3]

/-- Witness for `c2_rate_limit_failover` on a fresh two-key manager. -/
theorem c2_rate_limit_failover_witness :
    ∃ g, generate_content upstream_rl_ok 50 2 api_st0 = some g ∧
      g.result = Except.ok (some "ok") ∧
      g.attempts = [Slot.primary, Slot.backup] ∧
      g.state.using_backup = true ∧
      g.state.failover_count = api_st0.failover_count + 1 ∧
      g.state.primary_retry_time = some (50 + 300) ∧
      g.state.last_failover_time = some 50 :=
  c2_rate_limit_failover upstream_rl_ok 50 api_st0 "429" "ok" rfl rfl rfl rfl
    (by decide) rfl

/-! ## Claim C4 -/

theorem generate_attempts_head (upstream : Slot → Except String String) (now : Nat)
    (st : APIState) (sl : Slot) (hc : (get_client now st).1 = some sl) :
    (attempts_of (generate_content upstream now 2 st)).head? = some sl := by
  cases hu : upstream sl with
  | ok resp =>
    rw [generate_of_gen_step_inl upstream now st _ (gen_step_ok upstream now st sl resp hc hu) 1]
    rfl
  | error e =>
    by_cases hg : (!(track_request (get_client now st).2).using_backup &&
        (track_request (get_client now st).2).backup_client) = true
    · obtain ⟨hub', hbk'⟩ := Bool.and_eq_true _ _ |>.mp hg
      have hstep := gen_step_error_failover upstream now st sl e hc hu
        (Bool.not_eq_true' .. |>.mp hub') hbk'
      obtain ⟨hub3, hrt3⟩ := gen_step_inr_state upstream now st sl _ hstep
      have hsr3 : should_retry_primary now
          ((failover_to_backup now (track_request (get_client now st).2)).2) = false :=
        should_retry_of_probation now _ (now + 300) hrt3 (by omega)
      obtain ⟨g', hg', -⟩ := gen_step_on_backup_inl upstream now _ hub3 hsr3
      rw [generate_of_gen_step_inr upstream now st sl _ 1 g' hstep
        (generate_of_gen_step_inl upstream now _ g' hg' 0)]
      rfl
    · have hstep := gen_step_error_no_failover upstream now st sl e hc hu
        (Bool.not_eq_true _ |>.mp hg)
      rw [generate_of_gen_step_inl upstream now st _ hstep 1]
      rfl

/-- C4: failback is lazy and happens before the upstream attempt.  If the
active slot is BACKUP, the primary credential is configured and
`now > primary_retry_time`, then `get_client` — the first thing
`generate_content` runs — switches the active slot back to PRIMARY and
clears `primary_retry_time`, and the first upstream attempt of the call is
made against PRIMARY.  Conversely, a success while on BACKUP before
probation elapses leaves the slot on BACKUP with the probation deadline
unchanged. -/
theorem c4_lazy_failback :
    ∀ (now : Nat) (st : APIState) (t : Nat),
    (st.using_backup = true → st.primary_client = true →
     st.primary_retry_time = some t → now > t →
      ((get_client now st).1 = some Slot.primary ∧
       (get_client now st).2.using_backup = false ∧
       (get_client now st).2.primary_retry_time = none ∧
       ∀ upstream, (attempts_of (generate_content upstream now 2 st)).head?
         = some Slot.primary)) ∧
    (∀ (upstream : Slot → Except String String) (resp : String),
      st.using_backup = true → st.primary_retry_time = some t →
      ¬ now > t → st.current_client = some Slot.backup →
      upstream Slot.backup = Except.ok resp →
      generate_content upstream now 2 st =
        some ⟨track_request (reset_rate_limits now st), [Slot.backup],
          Except.ok (some resp)⟩ ∧
      (track_request (reset_rate_limits now st)).using_backup = true ∧
      (track_request (reset_rate_limits now st)).primary_retry_time = some t) := by
  intro now st t
  constructor
  · intro hub hp hrt hgt
    have hsr : should_retry_primary now st = true := by
      unfold should_retry_primary
      rw [hub, hrt]
      simpa using hgt
    have hgc := get_client_failback now st hsr hp
    refine ⟨by rw [hgc], by rw [hgc], by rw [hgc], ?_⟩
    intro upstream
    exact generate_attempts_head upstream now st Slot.primary (by rw [hgc])
  · intro upstream resp hub hrt hle hcur hok
    have hsr : should_retry_primary now st = false :=
      should_retry_of_probation now st t hrt hle
    have hgc := get_client_no_retry now st hsr
    have hc1 : (get_client now st).1 = some Slot.backup := by
      rw [hgc]
      simpa using hcur
    have hstep := gen_step_ok upstream now st Slot.backup resp hc1 hok
    have h2 := generate_of_gen_step_inl upstream now st _ hstep 1
    simp only [hgc] at h2
    refine ⟨h2, ?_, ?_⟩
    · rw [track_using_backup, reset_using_backup, hub]
    · rw [track_primary_retry, reset_primary_retry, hrt]

/-- Witness for `c4_lazy_failback`: failback fires at t=400 on a state with
probation deadline 310; a success at t=100 stays on BACKUP. -/
theorem c4_lazy_failback_witness :
    ((get_client 400 api_st_backup).1 = some Slot.primary ∧
     (get_client 400 api_st_backup).2.using_backup = false ∧
     (get_client 400 api_st_backup).2.primary_retry_time = none) ∧
    (generate_content upstream_ok 100 2 api_st_backup =
      some ⟨track_request (reset_rate_limits 100 api_st_backup), [Slot.backup],
        Except.ok (some "ok")⟩ ∧
     (track_request (reset_rate_limits 100 api_st_backup)).using_backup = true) := by
  constructor
  · have h := (c4_lazy_failback 400 api_st_backup 310).1 rfl rfl rfl (by omega)
    exact ⟨h.1, h.2.1, h.2.2.1⟩
  · have h := (c4_lazy_failback 100 api_st_backup 310).2 upstream_ok "ok" rfl rfl
      (by omega) rfl rfl
    exact ⟨h.1, h.2.1⟩

/-! ## Claim C8 -/

theorem router_inv_init (pk bk : Bool) (t0 : Nat) :
    router_inv (init_api_state pk bk t0) := by
  intro h
  simp [init_api_state] at h

theorem router_inv_reset (now : Nat) (st : APIState) (h : router_inv st) :
    router_inv (reset_rate_limits now st) := by
  intro hb
  rw [reset_primary_retry]
  exact h (by rwa [reset_using_backup] at hb)

theorem router_inv_track (st : APIState) (h : router_inv st) :
    router_inv (track_request st) := by
  intro hb
  rw [track_primary_retry]
  exact h (by rwa [track_using_backup] at hb)

theorem router_inv_failover (now : Nat) (st : APIState) (h : router_inv st) :
    router_inv (failover_to_backup now st).2 := by
  unfold failover_to_backup
  split_ifs
  · exact h
  · intro _
    rfl

theorem router_inv_failback (st : APIState) (h : router_inv st) :
    router_inv (failback_to_primary st).2 := by
  unfold failback_to_primary
  split_ifs
  · exact h
  · intro hb
    cases hb

theorem get_client_snd (now : Nat) (st : APIState) :
    (get_client now st).2 =
      if should_retry_primary now st = true then
        (failback_to_primary (reset_rate_limits now st)).2
      else reset_rate_limits now st := by
  unfold get_client
  dsimp only
  rw [should_retry_reset]

theorem router_inv_get_client (now : Nat) (st : APIState) (h : router_inv st) :
    router_inv (get_client now st).2 := by
  rw [get_client_snd]
  split_ifs
  · exact router_inv_failback _ (router_inv_reset now st h)
  · exact router_inv_reset now st h

theorem gen_step_inl_state (upstream : Slot → Except String String) (now : Nat)
    (st : APIState) (g : GenOutcome)
    (h : gen_step upstream now st = Sum.inl g) :
    g.state = (get_client now st).2 ∨ g.state = track_request (get_client now st).2 := by
  unfold gen_step at h
  rcases hc : (get_client now st).1 with _ | sl
  · simp only [hc] at h
    cases h
    exact Or.inl rfl
  · simp only [hc] at h
    cases hu : upstream sl with
    | ok resp =>
      simp only [hu] at h
      cases h
      exact Or.inr rfl
    | error e =>
      simp only [hu] at h
      split_ifs at h <;> cases h <;> exact Or.inr rfl

theorem router_inv_generate (upstream : Slot → Except String String) (now : Nat) :
    ∀ (fuel : Nat) (st : APIState) (g : GenOutcome), router_inv st →
    generate_content upstream now fuel st = some g → router_inv g.state := by
  intro fuel
  induction fuel with
  | zero => intro st g _ h; cases h
  | succ fuel ih =>
    intro st g hinv h
    rw [generate_content_succ] at h
    cases hstep : gen_step upstream now st with
    | inl g0 =>
      rw [hstep] at h
      have h2 : some g0 = some g := h
      cases h2
      rcases gen_step_inl_state upstream now st g hstep with h' | h' <;> rw [h']
      · exact router_inv_get_client now st hinv
      · exact router_inv_track _ (router_inv_get_client now st hinv)
    | inr p =>
      obtain ⟨sl, st'⟩ := p
      rw [hstep] at h
      obtain ⟨hub', hrt'⟩ := gen_step_inr_state upstream now st sl st' hstep
      have hinv' : router_inv st' := fun _ => by rw [hrt']; rfl
      have h2 : (match generate_content upstream now fuel st' with
          | none => none
          | some g => some (⟨g.state, sl :: g.attempts, g.result⟩ : GenOutcome))
          = some g := h
      cases h' : generate_content upstream now fuel st' with
      | none =>
        rw [h'] at h2
        exact absurd h2 (by simp)
      | some g' =>
        rw [h'] at h2
        have h3 : some (⟨g'.state, sl :: g'.attempts, g'.result⟩ : GenOutcome) = some g := h2
        cases h3
        exact ih st' g' hinv' h'

theorem router_inv_apply_op (st : APIState) (op : RouterOp) (h : router_inv st) :
    router_inv (apply_op st op) := by
  cases op with
  | generate upstream now =>
    show router_inv (match generate_content upstream now 2 st with
      | some g => g.state
      | none => st)
    cases hg : generate_content upstream now 2 st with
    | none => exact h
    | some g => exact router_inv_generate upstream now 2 st g h hg
  | client_fetch now => exact router_inv_get_client now st h
  | failover now => exact router_inv_failover now st h
  | failback => exact router_inv_failback st h

/-- C8: in every router state reachable from the initial state by any
sequence of generate / get-client / failover / failback operations, the
active slot being BACKUP (`using_backup = true`) implies
`primary_retry_time` is set; every operation preserves the invariant. -/
theorem c8_backup_probation_invariant :
    ∀ (ops : List RouterOp) (pk bk : Bool) (t0 : Nat),
    router_inv (ops.foldl apply_op (init_api_state pk bk t0)) := by
  intro ops pk bk t0
  suffices h : ∀ st, router_inv st → router_inv (ops.foldl apply_op st) from
    h _ (router_inv_init pk bk t0)
  induction ops with
  | nil => exact fun st h => h
  | cons op rest ih =>
    intro st h
    exact ih _ (router_inv_apply_op st op h)

/-- Witness for `c8_backup_probation_invariant`: after a concrete failover
the state is on BACKUP and its probation deadline is set. -/
theorem c8_backup_probation_invariant_witness :
    (([RouterOp.failover 5].foldl apply_op
      (init_api_state true true 0)).primary_retry_time).isSome = true :=
  c8_backup_probation_invariant [RouterOp.failover 5] true true 0 (by decide)
